import Mathlib

/-!
# hifi: avatar-mixer client data, octree element bag, Oculus swap framebuffer

A shallow embedding of three pieces of the repository:

* `assignment-client/src/avatars/AvatarMixerClientData.h`
* `libraries/octree/src/OctreeElementBag.cpp`
* `libraries/display-plugins/src/display-plugins/oculus/OculusWin32DisplayPlugin.cpp`
  (`SwapFramebufferWrapper::Increment`)

Member functions become functions on an explicit state; a member function that
returns a value and changes the object returns a pair.
-/

namespace Hifi

/-! ## Machine types -/

/-- Largest value of a 32-bit C++ `int`. -/
def INT_MAX : Int := 2147483647

/-- The value a 32-bit signed `int` holds after the mathematical result `x` is
stored in it (two's complement wrap-around). -/
def wrapInt32 (x : Int) : Int := (x + 2147483648) % 4294967296 - 2147483648

/-- A `quint64` value. The header only copies such values, it never computes with
them, so they are kept as the natural number they denote. -/
abbrev quint64 := Nat

/-- A C++ `float`, kept as its 32-bit IEEE-754 pattern: the header only stores
and returns floats. -/
abbrev float := Nat

/-- The pattern of `FLT_MAX` (`0x7F7FFFFF`). -/
def FLT_MAX : float := 2139095039

/-- A `QByteArray`: a sequence of bytes. -/
abbrev QByteArray := List Nat

/-- A value stored in a `QJsonObject`. -/
inductive QJsonValue where
  | bool (b : Bool)
  | int (i : Int)
  | double (bits : Nat)
  deriving DecidableEq, Repr

/-- A `QJsonObject`: keys with their values. -/
abbrev QJsonObject := List (String × QJsonValue)

/-- The assignment `jsonObject[key] = value`. -/
def QJsonObject.set (jsonObject : QJsonObject) (key : String) (value : QJsonValue) :
    QJsonObject :=
  (key, value) :: jsonObject.filter (fun kv => kv.1 != key)

/-! ## `AvatarMixerClientData` -/

/-- The private fields of `class AvatarMixerClientData`, in declaration order.
`AvatarData` is declared in another library and is kept abstract. -/
structure AvatarMixerClientData (AvatarData : Type) where
  _avatar : AvatarData
  _hasReceivedFirstPackets : Bool
  _billboardChangeTimestamp : quint64
  _identityChangeTimestamp : quint64
  _fullRateDistance : float
  _maxFullRateDistance : float
  _numAvatarsSentLastFrame : Int

namespace AvatarMixerClientData

variable {AvatarData : Type}

/-- `AvatarData& getAvatar() { return _avatar; }`: read through the reference. -/
def getAvatar (s : AvatarMixerClientData AvatarData) : AvatarData := s._avatar

/-- `getAvatar()` hands out a mutable reference; `write` is what the caller does
to the avatar through it. -/
def getAvatarWrite (s : AvatarMixerClientData AvatarData) (write : AvatarData → AvatarData) :
    AvatarMixerClientData AvatarData :=
  { s with _avatar := write s._avatar }

/-- Modelled from the spec: the body of `checkAndSetHasReceivedFirstPackets` is in
`AvatarMixerClientData.cpp`, which is not among the sources. The spec says it
"transitions `hasReceivedFirstPackets` from false to true at most once and
reports to the caller whether this call performed the transition". The first
component is that report (`true` = this call performed the transition). -/
def checkAndSetHasReceivedFirstPackets (s : AvatarMixerClientData AvatarData) :
    Bool × AvatarMixerClientData AvatarData :=
  if s._hasReceivedFirstPackets then (false, s)
  else (true, { s with _hasReceivedFirstPackets := true })

/-- `quint64 getBillboardChangeTimestamp() const`. -/
def getBillboardChangeTimestamp (s : AvatarMixerClientData AvatarData) : quint64 :=
  s._billboardChangeTimestamp

/-- `void setBillboardChangeTimestamp(quint64 billboardChangeTimestamp)`. -/
def setBillboardChangeTimestamp (s : AvatarMixerClientData AvatarData)
    (billboardChangeTimestamp : quint64) : AvatarMixerClientData AvatarData :=
  { s with _billboardChangeTimestamp := billboardChangeTimestamp }

/-- `quint64 getIdentityChangeTimestamp() const`. -/
def getIdentityChangeTimestamp (s : AvatarMixerClientData AvatarData) : quint64 :=
  s._identityChangeTimestamp

/-- `void setIdentityChangeTimestamp(quint64 identityChangeTimestamp)`. -/
def setIdentityChangeTimestamp (s : AvatarMixerClientData AvatarData)
    (identityChangeTimestamp : quint64) : AvatarMixerClientData AvatarData :=
  { s with _identityChangeTimestamp := identityChangeTimestamp }

/-- `float getFullRateDistance() const`. -/
def getFullRateDistance (s : AvatarMixerClientData AvatarData) : float :=
  s._fullRateDistance

/-- `void setMaxFullRateDistance(float distance)`. -/
def setMaxFullRateDistance (s : AvatarMixerClientData AvatarData) (distance : float) :
    AvatarMixerClientData AvatarData :=
  { s with _maxFullRateDistance := distance }

/-- `void resetNumAvatarsSentLastFrame() { _numAvatarsSentLastFrame = 0; }`. -/
def resetNumAvatarsSentLastFrame (s : AvatarMixerClientData AvatarData) :
    AvatarMixerClientData AvatarData :=
  { s with _numAvatarsSentLastFrame := 0 }

/-- `void increaseNumAvatarsSentLastFrame() { ++_numAvatarsSentLastFrame; }` on a
32-bit `int`. -/
def increaseNumAvatarsSentLastFrame (s : AvatarMixerClientData AvatarData) :
    AvatarMixerClientData AvatarData :=
  { s with _numAvatarsSentLastFrame := wrapInt32 (s._numAvatarsSentLastFrame + 1) }

/-- `int getNumAvatarsSentLastFrame() const`. -/
def getNumAvatarsSentLastFrame (s : AvatarMixerClientData AvatarData) : Int :=
  s._numAvatarsSentLastFrame

/-- Modelled from the spec: the body of `loadJSONStats` is in
`AvatarMixerClientData.cpp`, which is not among the sources. The header declares
it `void loadJSONStats(QJsonObject& jsonObject) const`; the spec describes a
"point-in-time structured snapshot" holding `numAvatarsSentLastFrame` and the
"first-packet-gate status", "read-only" on the session. The result is the
session after the call together with the JSON object after the call. -/
def loadJSONStats (s : AvatarMixerClientData AvatarData) (jsonObject : QJsonObject) :
    AvatarMixerClientData AvatarData × QJsonObject :=
  (s, (jsonObject.set "numAvatarsSentLastFrame" (.int s._numAvatarsSentLastFrame)).set
        "hasReceivedFirstPackets" (.bool s._hasReceivedFirstPackets))

/-- The session after `k` consecutive calls of `increaseNumAvatarsSentLastFrame()`. -/
def increaseNumAvatarsSentLastFrameTimes :
    Nat → AvatarMixerClientData AvatarData → AvatarMixerClientData AvatarData
  | 0, s => s
  | k + 1, s => increaseNumAvatarsSentLastFrame (increaseNumAvatarsSentLastFrameTimes k s)

/-- One call of a public member function, with its arguments. -/
inductive Op (AvatarData : Type) where
  | parseData (packet : QByteArray)
  | getAvatar (write : AvatarData → AvatarData)
  | checkAndSetHasReceivedFirstPackets
  | getBillboardChangeTimestamp
  | setBillboardChangeTimestamp (billboardChangeTimestamp : quint64)
  | getIdentityChangeTimestamp
  | setIdentityChangeTimestamp (identityChangeTimestamp : quint64)
  | getFullRateDistance
  | setMaxFullRateDistance (distance : float)
  | resetNumAvatarsSentLastFrame
  | increaseNumAvatarsSentLastFrame
  | getNumAvatarsSentLastFrame
  | loadJSONStats (jsonObject : QJsonObject)

/-- The session after one call. `parseData` is declared in the header
(`int parseData(const QByteArray& packet)`) but defined outside the sources, so
its body is a parameter. -/
def call (parseData : QByteArray → AvatarMixerClientData AvatarData →
      Int × AvatarMixerClientData AvatarData) :
    Op AvatarData → AvatarMixerClientData AvatarData → AvatarMixerClientData AvatarData
  | .parseData packet, s => (parseData packet s).2
  | .getAvatar write, s => s.getAvatarWrite write
  | .checkAndSetHasReceivedFirstPackets, s => s.checkAndSetHasReceivedFirstPackets.2
  | .getBillboardChangeTimestamp, s => s
  | .setBillboardChangeTimestamp t, s => s.setBillboardChangeTimestamp t
  | .getIdentityChangeTimestamp, s => s
  | .setIdentityChangeTimestamp t, s => s.setIdentityChangeTimestamp t
  | .getFullRateDistance, s => s
  | .setMaxFullRateDistance d, s => s.setMaxFullRateDistance d
  | .resetNumAvatarsSentLastFrame, s => s.resetNumAvatarsSentLastFrame
  | .increaseNumAvatarsSentLastFrame, s => s.increaseNumAvatarsSentLastFrame
  | .getNumAvatarsSentLastFrame, s => s
  | .loadJSONStats jsonObject, s => (s.loadJSONStats jsonObject).1

/-- Along a sequence of calls no call makes `getBillboardChangeTimestamp()` or
`getIdentityChangeTimestamp()` smaller than it was before that call. -/
def timestampsNeverLowered (parseData : QByteArray → AvatarMixerClientData AvatarData →
      Int × AvatarMixerClientData AvatarData) :
    AvatarMixerClientData AvatarData → List (Op AvatarData) → Prop
  | _, [] => True
  | s, op :: rest =>
    (s.getBillboardChangeTimestamp ≤ (call parseData op s).getBillboardChangeTimestamp ∧
      s.getIdentityChangeTimestamp ≤ (call parseData op s).getIdentityChangeTimestamp) ∧
    timestampsNeverLowered parseData (call parseData op s) rest

/-- Every setter call in the sequence passes an argument that is not below the
value the timestamp has when the call is made. -/
def setterArgumentsAscend (parseData : QByteArray → AvatarMixerClientData AvatarData →
      Int × AvatarMixerClientData AvatarData) :
    AvatarMixerClientData AvatarData → List (Op AvatarData) → Prop
  | _, [] => True
  | s, op :: rest =>
    (match op with
      | .setBillboardChangeTimestamp t => s._billboardChangeTimestamp ≤ t
      | .setIdentityChangeTimestamp t => s._identityChangeTimestamp ≤ t
      | _ => True) ∧
    setterArgumentsAscend parseData (call parseData op s) rest

/-- The property assumed of the `parseData` body: it lowers neither timestamp. -/
def parseKeepsTimestamps (parseData : QByteArray → AvatarMixerClientData AvatarData →
      Int × AvatarMixerClientData AvatarData) : Prop :=
  ∀ packet s, s._billboardChangeTimestamp ≤ (parseData packet s).2._billboardChangeTimestamp ∧
    s._identityChangeTimestamp ≤ (parseData packet s).2._identityChangeTimestamp

end AvatarMixerClientData

/-- A session used in the examples: fields as the in-class initialisers give them,
flag down, timestamps zero. -/
def exampleSession : AvatarMixerClientData Unit :=
  { _avatar := (), _hasReceivedFirstPackets := false, _billboardChangeTimestamp := 0,
    _identityChangeTimestamp := 0, _fullRateDistance := FLT_MAX,
    _maxFullRateDistance := FLT_MAX, _numAvatarsSentLastFrame := 7 }

/-- A `parseData` body for the examples: it consumes the whole packet and leaves
the session alone. -/
def exampleParseData (packet : QByteArray) (s : AvatarMixerClientData Unit) :
    Int × AvatarMixerClientData Unit :=
  (packet.length, s)

/-! ## `QSet<OctreeElement*>` -/

/-- An `OctreeElement*`: an address, with `NULL` the address zero. -/
abbrev OctreeElementPtr := Nat

/-- The null pointer. -/
def NULL : OctreeElementPtr := 0

/-- A `QSet<OctreeElement*>`: the stored values in iteration order, each value
stored once. Qt leaves the iteration order unspecified; every statement below
holds for every order. -/
structure QSet where
  elems : List OctreeElementPtr
  nodup : elems.Nodup

namespace QSet

/-- The set a default-constructed `QSet` holds, also the result of `clear()`. -/
def empty : QSet := ⟨[], List.nodup_nil⟩

/-- `size()`. -/
def size (q : QSet) : Nat := q.elems.length

/-- `contains(value)`. -/
def contains (q : QSet) (value : OctreeElementPtr) : Bool := decide (value ∈ q.elems)

/-- `insert(value)`: a value already stored is not stored again; a new value gets
some place in the iteration order (here the front). -/
def insert (q : QSet) (value : OctreeElementPtr) : QSet :=
  if h : value ∈ q.elems then q else ⟨value :: q.elems, List.nodup_cons.mpr ⟨h, q.nodup⟩⟩

/-- `remove(value)`: returns whether the value was stored, and the set without it. -/
def remove (q : QSet) (value : OctreeElementPtr) : Bool × QSet :=
  (decide (value ∈ q.elems), ⟨q.elems.erase value, q.nodup.erase value⟩)

/-- `begin()`: an iterator is a position in the iteration order. -/
def begin (_q : QSet) : Nat := 0

/-- Dereferencing an iterator (`*it`); the code only does it on a non-empty set. -/
def deref (q : QSet) (it : Nat) : OctreeElementPtr := q.elems.getD it NULL

/-- `erase(it)`: drops the value at the iterator. -/
def erase (q : QSet) (it : Nat) : QSet :=
  ⟨q.elems.eraseIdx it, q.nodup.sublist (List.eraseIdx_sublist q.elems it)⟩

/-- `clear()`. -/
def clear (_q : QSet) : QSet := empty

end QSet

/-! ## `OctreeElementBag` -/

/-- The members of `class OctreeElementBag` that `OctreeElementBag.cpp` uses. -/
structure OctreeElementBag where
  _bagElements : QSet
  _hooked : Bool

namespace OctreeElementBag

/-- The constructor `OctreeElementBag()`: an empty `_bagElements`, `_hooked = true`.
(The registration `OctreeElement::addDeleteHook(this)` acts on a list kept by
`OctreeElement`, not on the bag.) -/
def new : OctreeElementBag := { _bagElements := QSet.empty, _hooked := true }

/-- `void unhookNotifications()`: only `OctreeElement`'s hook list can change. -/
def unhookNotifications (b : OctreeElementBag) : OctreeElementBag := b

/-- `void deleteAll() { _bagElements.clear(); }`. -/
def deleteAll (b : OctreeElementBag) : OctreeElementBag :=
  { b with _bagElements := b._bagElements.clear }

/-- `void insert(OctreeElement* element) { _bagElements.insert(element); }`. -/
def insert (b : OctreeElementBag) (element : OctreeElementPtr) : OctreeElementBag :=
  { b with _bagElements := b._bagElements.insert element }

/-- `OctreeElement* extract()`: the returned pointer and the bag afterwards. -/
def extract (b : OctreeElementBag) : OctreeElementPtr × OctreeElementBag :=
  if b._bagElements.size > 0 then
    let front := b._bagElements.begin
    (b._bagElements.deref front, { b with _bagElements := b._bagElements.erase front })
  else
    (NULL, b)

/-- `bool contains(OctreeElement* element)`. -/
def contains (b : OctreeElementBag) (element : OctreeElementPtr) : Bool :=
  b._bagElements.contains element

/-- `void remove(OctreeElement* element) { _bagElements.remove(element); }`. -/
def remove (b : OctreeElementBag) (element : OctreeElementPtr) : OctreeElementBag :=
  { b with _bagElements := (b._bagElements.remove element).2 }

/-- `void elementDeleted(OctreeElement* element)`: the line written to `qDebug()`
and the bag afterwards. -/
def elementDeleted (b : OctreeElementBag) (element : OctreeElementPtr) :
    String × OctreeElementBag :=
  ("OctreeElementBag::elementDeleted()...", b.remove element)

/-- One call of a member function of the bag. -/
inductive Op where
  | unhookNotifications
  | elementDeleted (element : OctreeElementPtr)
  | deleteAll
  | insert (element : OctreeElementPtr)
  | extract
  | contains (element : OctreeElementPtr)
  | remove (element : OctreeElementPtr)
  deriving DecidableEq, Repr

/-- The bag after one call, and the pointer the call returned when it was an
`extract()`. -/
def call : Op → OctreeElementBag → Option OctreeElementPtr × OctreeElementBag
  | .unhookNotifications, b => (none, b.unhookNotifications)
  | .elementDeleted element, b => (none, (b.elementDeleted element).2)
  | .deleteAll, b => (none, b.deleteAll)
  | .insert element, b => (none, b.insert element)
  | .extract, b => (some b.extract.1, b.extract.2)
  | .contains _, b => (none, b)
  | .remove element, b => (none, b.remove element)

/-- The pointers returned by the `extract()` calls of a sequence of calls, in order. -/
def extractResults : OctreeElementBag → List Op → List OctreeElementPtr
  | _, [] => []
  | b, op :: rest =>
    match (call op b).1 with
    | some r => r :: extractResults (call op b).2 rest
    | none => extractResults (call op b).2 rest

/-- The elements handed out by the `extract()` calls of a sequence of calls, in
order: what an `extract()` returned when it found the bag non-empty (the branch
`_bagElements.size() > 0`). An `extract()` on an empty bag hands out no element,
it returns `NULL`. -/
def extractedElements : OctreeElementBag → List Op → List OctreeElementPtr
  | _, [] => []
  | b, op :: rest =>
    if op = .extract ∧ b._bagElements.size > 0 then
      b.extract.1 :: extractedElements (call op b).2 rest
    else
      extractedElements (call op b).2 rest

end OctreeElementBag

/-! ## `SwapFramebufferWrapper` -/

/-- The fields of the Oculus SDK's `ovrSwapTextureSet` that the wrapper uses:
the textures (by texture id), `int TextureCount` and `int CurrentIndex`. -/
structure ovrSwapTextureSet where
  Textures : List Nat
  TextureCount : Int
  CurrentIndex : Int
  deriving DecidableEq, Repr

/-- The member of `SwapFramebufferWrapper` that `Increment` uses: `color`, an
`ovrSwapTextureSet*` (`none` is `nullptr`). -/
structure SwapFramebufferWrapper where
  color : Option ovrSwapTextureSet
  deriving DecidableEq, Repr

namespace SwapFramebufferWrapper

/-- `void Increment() { ++color->CurrentIndex; color->CurrentIndex %= color->TextureCount; }`.
`none` when the call has no defined result: `color` is null, or the divisor
`TextureCount` is zero. `%` on `int` truncates toward zero. -/
def Increment (w : SwapFramebufferWrapper) : Option SwapFramebufferWrapper :=
  match w.color with
  | none => none
  | some c =>
    let incremented := wrapInt32 (c.CurrentIndex + 1)
    if c.TextureCount = 0 then none
    else some { w with color := some { c with CurrentIndex := Int.tmod incremented c.TextureCount } }

end SwapFramebufferWrapper

/-- A bag for the examples: 3, 5 and 8 inserted into a new bag. -/
def exampleBag : OctreeElementBag :=
  ((OctreeElementBag.new.insert 3).insert 5).insert 8

/-- A swap set of three textures that currently shows the last one. -/
def exampleSwapSet : ovrSwapTextureSet :=
  { Textures := [11, 12, 13], TextureCount := 3, CurrentIndex := 2 }

/-! ## Theorems: machine integers -/

/-- Storing a value that fits a 32-bit `int` keeps it. -/
theorem wrapInt32_eq_self (x : Int) (hlo : -2147483648 ≤ x) (hhi : x ≤ INT_MAX) :
    wrapInt32 x = x := by
  unfold INT_MAX at hhi
  unfold wrapInt32
  omega

/-! ## Theorems: `AvatarMixerClientData` -/

namespace AvatarMixerClientData

variable {AvatarData : Type}

/-- Starting from a zero counter, `k` increments give `k` as long as `k` fits an `int`. -/
theorem increaseTimes_count (s : AvatarMixerClientData AvatarData)
    (hs : s._numAvatarsSentLastFrame = 0) :
    ∀ k : Nat, (k : Int) ≤ INT_MAX →
      (increaseNumAvatarsSentLastFrameTimes k s)._numAvatarsSentLastFrame = (k : Int) := by
  intro k
  induction k with
  | zero => intro _; simpa [increaseNumAvatarsSentLastFrameTimes] using hs
  | succ n ih =>
    intro hk
    have hn : (n : Int) ≤ INT_MAX := by
      have : (n : Int) ≤ ((n + 1 : Nat) : Int) := by push_cast; omega
      exact le_trans this hk
    have hprev := ih hn
    have hk2 : ((n : Int) + 1) ≤ INT_MAX := by
      have : ((n + 1 : Nat) : Int) = (n : Int) + 1 := by push_cast; rfl
      rw [← this]; exact hk
    show wrapInt32 ((increaseNumAvatarsSentLastFrameTimes n s)._numAvatarsSentLastFrame + 1)
      = ((n + 1 : Nat) : Int)
    rw [hprev, wrapInt32_eq_self _ (by omega) hk2]
    push_cast
    rfl

/-- One call lowers neither timestamp when a setter argument is not below the
current value and `parseData` lowers neither. -/
theorem call_keeps_timestamps
    (parseData : QByteArray → AvatarMixerClientData AvatarData →
      Int × AvatarMixerClientData AvatarData)
    (hparse : parseKeepsTimestamps parseData)
    (s : AvatarMixerClientData AvatarData) (op : Op AvatarData)
    (harg : match op with
      | .setBillboardChangeTimestamp t => s._billboardChangeTimestamp ≤ t
      | .setIdentityChangeTimestamp t => s._identityChangeTimestamp ≤ t
      | _ => True) :
    s.getBillboardChangeTimestamp ≤ (call parseData op s).getBillboardChangeTimestamp ∧
      s.getIdentityChangeTimestamp ≤ (call parseData op s).getIdentityChangeTimestamp := by
  cases op with
  | parseData packet => exact hparse packet s
  | checkAndSetHasReceivedFirstPackets =>
    simp only [call, checkAndSetHasReceivedFirstPackets, getBillboardChangeTimestamp,
      getIdentityChangeTimestamp]
    split <;> exact ⟨le_refl _, le_refl _⟩
  | setBillboardChangeTimestamp t => exact ⟨harg, le_refl _⟩
  | setIdentityChangeTimestamp t => exact ⟨le_refl _, harg⟩
  | _ => exact ⟨le_refl _, le_refl _⟩

/-- C1: whatever the session state, `resetNumAvatarsSentLastFrame()` makes
`getNumAvatarsSentLastFrame()` return 0, and `k` calls of
`increaseNumAvatarsSentLastFrame()` after the reset make it return exactly `k`,
for every `k` up to the largest `int`. -/
theorem reset_then_increase_counts (s : AvatarMixerClientData AvatarData) (k : Nat)
    (hk : (k : Int) ≤ INT_MAX) :
    s.resetNumAvatarsSentLastFrame.getNumAvatarsSentLastFrame = 0 ∧
      (increaseNumAvatarsSentLastFrameTimes k
        s.resetNumAvatarsSentLastFrame).getNumAvatarsSentLastFrame = (k : Int) :=
  ⟨rfl, increaseTimes_count s.resetNumAvatarsSentLastFrame rfl k hk⟩

/-- C2: on a session whose flag is false, two calls of
`checkAndSetHasReceivedFirstPackets()` in a row report "performed transition" on
exactly one of them (the first); the flag is true after the first call and still
true after the second. -/
theorem checkAndSet_twice (s : AvatarMixerClientData AvatarData)
    (hs : s._hasReceivedFirstPackets = false) :
    (xor s.checkAndSetHasReceivedFirstPackets.1
        s.checkAndSetHasReceivedFirstPackets.2.checkAndSetHasReceivedFirstPackets.1 = true ∧
      s.checkAndSetHasReceivedFirstPackets.1 = true) ∧
    s.checkAndSetHasReceivedFirstPackets.2._hasReceivedFirstPackets = true ∧
    s.checkAndSetHasReceivedFirstPackets.2.checkAndSetHasReceivedFirstPackets.2._hasReceivedFirstPackets
      = true := by
  simp [checkAndSetHasReceivedFirstPackets, hs]

/-- C3 (as amended): the setters store their argument as given; along every
sequence of public calls in which each setter call passes an argument not below
the timestamp's current value (and the `parseData` body lowers neither
timestamp), no call makes `getBillboardChangeTimestamp()` or
`getIdentityChangeTimestamp()` smaller than it was before the call. -/
theorem timestamps_nondecreasing_of_ascending_arguments
    (parseData : QByteArray → AvatarMixerClientData AvatarData →
      Int × AvatarMixerClientData AvatarData)
    (hparse : parseKeepsTimestamps parseData) :
    (∀ (s : AvatarMixerClientData AvatarData) (t : quint64),
      (s.setBillboardChangeTimestamp t).getBillboardChangeTimestamp = t ∧
      (s.setIdentityChangeTimestamp t).getIdentityChangeTimestamp = t) ∧
    ∀ (ops : List (Op AvatarData)) (s : AvatarMixerClientData AvatarData),
      setterArgumentsAscend parseData s ops → timestampsNeverLowered parseData s ops := by
  refine ⟨fun _ _ => ⟨rfl, rfl⟩, ?_⟩
  intro ops
  induction ops with
  | nil => intro _ _; trivial
  | cons op rest ih =>
    intro s hargs
    exact ⟨call_keeps_timestamps parseData hparse s op hargs.1, ih _ hargs.2⟩

/-- C6: `loadJSONStats(jsonObject)` leaves the session as it was: every field has
the value it had before the call; the call's only output is the JSON object. -/
theorem loadJSONStats_readOnly (s : AvatarMixerClientData AvatarData)
    (jsonObject : QJsonObject) :
    (s.loadJSONStats jsonObject).1 = s ∧
    (s.loadJSONStats jsonObject).1._avatar = s._avatar ∧
    (s.loadJSONStats jsonObject).1._hasReceivedFirstPackets = s._hasReceivedFirstPackets ∧
    (s.loadJSONStats jsonObject).1._billboardChangeTimestamp = s._billboardChangeTimestamp ∧
    (s.loadJSONStats jsonObject).1._identityChangeTimestamp = s._identityChangeTimestamp ∧
    (s.loadJSONStats jsonObject).1._fullRateDistance = s._fullRateDistance ∧
    (s.loadJSONStats jsonObject).1._maxFullRateDistance = s._maxFullRateDistance ∧
    (s.loadJSONStats jsonObject).1._numAvatarsSentLastFrame = s._numAvatarsSentLastFrame :=
  ⟨rfl, rfl, rfl, rfl, rfl, rfl, rfl, rfl⟩

end AvatarMixerClientData

/-- C1 at a session whose count was 7, with `k = 3`. -/
theorem reset_then_increase_counts_witness :
    ((3 : Nat) : Int) ≤ INT_MAX ∧
    exampleSession.resetNumAvatarsSentLastFrame.getNumAvatarsSentLastFrame = 0 ∧
    (AvatarMixerClientData.increaseNumAvatarsSentLastFrameTimes 3
      exampleSession.resetNumAvatarsSentLastFrame).getNumAvatarsSentLastFrame = 3 :=
  ⟨by decide, AvatarMixerClientData.reset_then_increase_counts exampleSession 3 (by decide)⟩

/-- C2 at the example session, whose flag is false. -/
theorem checkAndSet_twice_witness :
    exampleSession._hasReceivedFirstPackets = false ∧
    exampleSession.checkAndSetHasReceivedFirstPackets.1 = true ∧
    exampleSession.checkAndSetHasReceivedFirstPackets.2.checkAndSetHasReceivedFirstPackets.1
      = false ∧
    exampleSession.checkAndSetHasReceivedFirstPackets.2.checkAndSetHasReceivedFirstPackets.2._hasReceivedFirstPackets
      = true :=
  ⟨rfl, (AvatarMixerClientData.checkAndSet_twice exampleSession rfl).1.2, rfl,
    (AvatarMixerClientData.checkAndSet_twice exampleSession rfl).2.2⟩

/-- C3, the claim as stated fails: `setBillboardChangeTimestamp(5)` followed by
`setBillboardChangeTimestamp(3)` lowers `getBillboardChangeTimestamp()` from 5 to 3. -/
theorem setter_lowers_timestamp :
    ((exampleSession.setBillboardChangeTimestamp 5).setBillboardChangeTimestamp
        3).getBillboardChangeTimestamp = 3 ∧
    (exampleSession.setBillboardChangeTimestamp 5).getBillboardChangeTimestamp = 5 ∧
    ¬ AvatarMixerClientData.timestampsNeverLowered exampleParseData exampleSession
      [.setBillboardChangeTimestamp 5, .setBillboardChangeTimestamp 3] := by
  refine ⟨rfl, rfl, ?_⟩
  intro h
  have h2 := h.2.1.1
  revert h2
  decide

/-- C3 as amended, at a sequence of calls whose setter arguments ascend. -/
theorem timestamps_nondecreasing_witness :
    AvatarMixerClientData.parseKeepsTimestamps exampleParseData ∧
    AvatarMixerClientData.setterArgumentsAscend exampleParseData exampleSession
      [.setBillboardChangeTimestamp 5, .parseData [1, 2], .setIdentityChangeTimestamp 4,
        .setBillboardChangeTimestamp 9] ∧
    AvatarMixerClientData.timestampsNeverLowered exampleParseData exampleSession
      [.setBillboardChangeTimestamp 5, .parseData [1, 2], .setIdentityChangeTimestamp 4,
        .setBillboardChangeTimestamp 9] :=
  have hparse : AvatarMixerClientData.parseKeepsTimestamps exampleParseData :=
    fun _ _ => ⟨le_refl _, le_refl _⟩
  have hargs : AvatarMixerClientData.setterArgumentsAscend exampleParseData exampleSession
      [.setBillboardChangeTimestamp 5, .parseData [1, 2], .setIdentityChangeTimestamp 4,
        .setBillboardChangeTimestamp 9] := by
    simp [AvatarMixerClientData.setterArgumentsAscend, AvatarMixerClientData.call,
      AvatarMixerClientData.setBillboardChangeTimestamp,
      AvatarMixerClientData.setIdentityChangeTimestamp, exampleParseData, exampleSession]
  ⟨hparse, hargs,
    (AvatarMixerClientData.timestamps_nondecreasing_of_ascending_arguments exampleParseData
      hparse).2 _ exampleSession hargs⟩

/-! ## Theorems: `QSet` -/

namespace QSet

/-- Two sets with the same stored values in the same order are the same set. -/
theorem eq_of_elems_eq : ∀ (p q : QSet), p.elems = q.elems → p = q
  | ⟨_, _⟩, ⟨_, _⟩, h => by cases h; rfl

theorem contains_eq_true_iff (q : QSet) (x : OctreeElementPtr) :
    q.contains x = true ↔ x ∈ q.elems := by
  simp [contains]

theorem contains_eq_false_iff (q : QSet) (x : OctreeElementPtr) :
    q.contains x = false ↔ x ∉ q.elems := by
  simp [contains]

theorem mem_insert_iff (q : QSet) (v x : OctreeElementPtr) :
    x ∈ (q.insert v).elems ↔ x = v ∨ x ∈ q.elems := by
  unfold insert
  split
  · rename_i h
    constructor
    · exact fun hx => Or.inr hx
    · rintro (rfl | hx)
      · exact h
      · exact hx
  · simp

theorem insert_of_mem (q : QSet) (v : OctreeElementPtr) (h : v ∈ q.elems) :
    q.insert v = q := by
  unfold insert
  simp [h]

theorem remove_of_not_mem (q : QSet) (v : OctreeElementPtr) (h : v ∉ q.elems) :
    (q.remove v).2 = q :=
  eq_of_elems_eq _ _ (List.erase_of_not_mem h)

theorem mem_remove_iff (q : QSet) (v x : OctreeElementPtr) :
    x ∈ (q.remove v).2.elems ↔ x ≠ v ∧ x ∈ q.elems :=
  q.nodup.mem_erase_iff

end QSet

/-! ## Theorems: `OctreeElementBag` -/

namespace OctreeElementBag

/-- Two bags with the same members are the same bag. -/
theorem eq_of_fields_eq : ∀ (a b : OctreeElementBag),
    a._bagElements = b._bagElements → a._hooked = b._hooked → a = b
  | ⟨_, _⟩, ⟨_, _⟩, h1, h2 => by cases h1; cases h2; rfl

theorem bag_contains_eq_true_iff (b : OctreeElementBag) (x : OctreeElementPtr) :
    b.contains x = true ↔ x ∈ b._bagElements.elems :=
  QSet.contains_eq_true_iff _ _

theorem bag_contains_eq_false_iff (b : OctreeElementBag) (x : OctreeElementPtr) :
    b.contains x = false ↔ x ∉ b._bagElements.elems :=
  QSet.contains_eq_false_iff _ _

/-- Two bags answer `contains(x)` alike when `x` is stored in both or in neither. -/
theorem contains_congr (a b : OctreeElementBag) (x : OctreeElementPtr)
    (h : x ∈ a._bagElements.elems ↔ x ∈ b._bagElements.elems) :
    a.contains x = b.contains x := by
  simp [contains, QSet.contains, h]

/-- `extract()` on an empty bag. -/
theorem extract_of_nil (b : OctreeElementBag) (h : b._bagElements.elems = []) :
    b.extract = (NULL, b) := by
  simp [extract, QSet.size, h]

/-- `extract()` on a bag whose iteration starts with `a`. -/
theorem extract_of_cons (b : OctreeElementBag) (a : OctreeElementPtr)
    (l : List OctreeElementPtr) (h : b._bagElements.elems = a :: l) :
    b.extract.1 = a ∧ b.extract.2._bagElements.elems = l ∧
      b.extract.2._hooked = b._hooked := by
  simp [extract, QSet.size, QSet.begin, QSet.deref, QSet.erase, h]

/-- What `extract()` returns is `NULL` or was stored in the bag. -/
theorem extract_result (b : OctreeElementBag) :
    b.extract.1 = NULL ∨ b.extract.1 ∈ b._bagElements.elems := by
  cases h : b._bagElements.elems with
  | nil => left; rw [extract_of_nil b h]
  | cons a l => right; rw [(extract_of_cons b a l h).1]; exact List.mem_cons_self a l

/-- What is stored after `extract()` was stored before. -/
theorem mem_of_mem_extract (b : OctreeElementBag) (x : OctreeElementPtr)
    (hx : x ∈ b.extract.2._bagElements.elems) : x ∈ b._bagElements.elems := by
  cases h : b._bagElements.elems with
  | nil => rw [extract_of_nil b h] at hx; rw [h] at hx; exact hx
  | cons a l => rw [(extract_of_cons b a l h).2.1] at hx; exact List.mem_cons_of_mem a hx

/-- A call other than `insert(e)` does not put `e` into the bag. -/
theorem call_keeps_absent (e : OctreeElementPtr) (op : Op) (b : OctreeElementBag)
    (hb : e ∉ b._bagElements.elems) (hop : op ≠ .insert e) :
    e ∉ (call op b).2._bagElements.elems := by
  cases op with
  | unhookNotifications => exact hb
  | elementDeleted x =>
    intro h
    exact hb ((QSet.mem_remove_iff b._bagElements x e).mp h).2
  | deleteAll => simp [call, deleteAll, QSet.clear, QSet.empty]
  | insert x =>
    intro h
    rcases (QSet.mem_insert_iff b._bagElements x e).mp h with h1 | h1
    · exact hop (by rw [h1])
    · exact hb h1
  | extract => exact fun h => hb (mem_of_mem_extract b e h)
  | contains x => exact hb
  | remove x =>
    intro h
    exact hb ((QSet.mem_remove_iff b._bagElements x e).mp h).2

/-- While a non-null `e` is absent and is not inserted, no `extract()` returns it. -/
theorem not_mem_extractResults (e : OctreeElementPtr) (he : e ≠ NULL) :
    ∀ (ops : List Op) (b : OctreeElementBag), e ∉ b._bagElements.elems →
      Op.insert e ∉ ops → e ∉ extractResults b ops := by
  intro ops
  induction ops with
  | nil => intro b _ _; simp [extractResults]
  | cons op rest ih =>
    intro b hb hops
    have hop : op ≠ .insert e := fun h => hops (by rw [h]; exact List.mem_cons_self _ _)
    have hrest : Op.insert e ∉ rest := fun h => hops (List.mem_cons_of_mem _ h)
    have htail := ih (call op b).2 (call_keeps_absent e op b hb hop) hrest
    unfold extractResults
    split
    · rename_i r hr
      intro hmem
      rcases List.mem_cons.mp hmem with h1 | h1
      · cases op with
        | extract =>
          have hr2 : b.extract.1 = r := by simpa [call] using hr
          rcases extract_result b with h2 | h2
          · exact he (by rw [h1, ← hr2, h2])
          · exact hb (by rw [h1, ← hr2]; exact h2)
        | _ => simp [call] at hr
      · exact htail h1
    · exact htail

/-- What `extract()` returns on a non-empty bag was stored in the bag. -/
theorem extract_result_mem (b : OctreeElementBag) (hsize : b._bagElements.size > 0) :
    b.extract.1 ∈ b._bagElements.elems := by
  cases h : b._bagElements.elems with
  | nil => simp [QSet.size, h] at hsize
  | cons a l => rw [(extract_of_cons b a l h).1]; exact List.mem_cons_self a l

/-- While `e` is absent and is not inserted, no `extract()` hands it out. -/
theorem not_mem_extractedElements (e : OctreeElementPtr) :
    ∀ (ops : List Op) (b : OctreeElementBag), e ∉ b._bagElements.elems →
      Op.insert e ∉ ops → e ∉ extractedElements b ops := by
  intro ops
  induction ops with
  | nil => intro b _ _; simp [extractedElements]
  | cons op rest ih =>
    intro b hb hops
    have hop : op ≠ .insert e := fun h => hops (by rw [h]; exact List.mem_cons_self _ _)
    have hrest : Op.insert e ∉ rest := fun h => hops (List.mem_cons_of_mem _ h)
    have htail := ih (call op b).2 (call_keeps_absent e op b hb hop) hrest
    unfold extractedElements
    split
    · rename_i hcond
      intro hmem
      rcases List.mem_cons.mp hmem with h1 | h1
      · exact hb (by rw [h1]; exact extract_result_mem b hcond.2)
      · exact htail h1
    · exact htail

/-- After `extract()` the bag does not contain what the call returned. -/
theorem extract_drops_result (c : OctreeElementBag) :
    c.extract.2.contains c.extract.1 = false := by
  cases h : c._bagElements.elems with
  | nil =>
    rw [extract_of_nil c h]
    exact (bag_contains_eq_false_iff c NULL).mpr (by rw [h]; exact List.not_mem_nil NULL)
  | cons a l =>
    obtain ⟨hr, hrest, _⟩ := extract_of_cons c a l h
    have hnodup : (a :: l).Nodup := h ▸ c._bagElements.nodup
    rw [hr]
    exact (bag_contains_eq_false_iff _ a).mpr (by rw [hrest]; exact (List.nodup_cons.mp hnodup).1)

/-- C4: for an element `e` that is not in the bag, `remove(e)` and
`elementDeleted(e)` return the very same bag, so `contains(x)` answers for every
`x` what it answered before. -/
theorem remove_absent_unchanged (b : OctreeElementBag) (e : OctreeElementPtr)
    (he : b.contains e = false) :
    b.remove e = b ∧ (b.elementDeleted e).2 = b ∧
    ∀ x, (b.remove e).contains x = b.contains x ∧
      (b.elementDeleted e).2.contains x = b.contains x := by
  have hmem : e ∉ b._bagElements.elems := (bag_contains_eq_false_iff b e).mp he
  have hrem : b.remove e = b :=
    eq_of_fields_eq _ _ (QSet.remove_of_not_mem b._bagElements e hmem) rfl
  have hdel : (b.elementDeleted e).2 = b := hrem
  refine ⟨hrem, hdel, fun x => ⟨?_, ?_⟩⟩
  · rw [hrem]
  · rw [hdel]

/-- C5: for every bag and every `e`, after `elementDeleted(e)` the bag does not
contain `e` and `contains(x)` is as before for every other `x`; in every later
sequence of calls without `insert(e)` no `extract()` hands out `e` as an element
of the bag, and when `e` is an element (not the null pointer) no `extract()`
returns the pointer `e` at all. -/
theorem elementDeleted_forgets (b : OctreeElementBag) (e : OctreeElementPtr) :
    (b.elementDeleted e).2.contains e = false ∧
    (∀ x, x ≠ e → (b.elementDeleted e).2.contains x = b.contains x) ∧
    (∀ ops : List Op, Op.insert e ∉ ops →
      e ∉ extractedElements (b.elementDeleted e).2 ops) ∧
    (e ≠ NULL → ∀ ops : List Op, Op.insert e ∉ ops →
      e ∉ extractResults (b.elementDeleted e).2 ops) := by
  have habsent : e ∉ (b.elementDeleted e).2._bagElements.elems := fun h =>
    ((QSet.mem_remove_iff b._bagElements e e).mp h).1 rfl
  refine ⟨(bag_contains_eq_false_iff _ e).mpr habsent, ?_, ?_, ?_⟩
  · intro x hx
    apply contains_congr
    constructor
    · exact fun h => ((QSet.mem_remove_iff b._bagElements e x).mp h).2
    · exact fun h => (QSet.mem_remove_iff b._bagElements e x).mpr ⟨hx, h⟩
  · intro ops hops
    exact not_mem_extractedElements e ops _ habsent hops
  · intro he ops hops
    exact not_mem_extractResults e he ops _ habsent hops

/-- C8: when `NULL` is not in the bag, `extract()` returns `NULL` exactly if the
bag is empty; on an empty bag it leaves the bag as it is; on a non-empty bag it
returns an element `r` of the bag, after which `contains(r)` is false, the size
is one less and `contains(x)` is as before for every other `x`. -/
theorem extract_spec (b : OctreeElementBag) :
    (b.contains NULL = false → (b.extract.1 = NULL ↔ b._bagElements.size = 0)) ∧
    (b._bagElements.size = 0 → b.extract = (NULL, b)) ∧
    (b._bagElements.size > 0 →
      b.contains b.extract.1 = true ∧
      b.extract.2.contains b.extract.1 = false ∧
      b.extract.2._bagElements.size + 1 = b._bagElements.size ∧
      ∀ x, x ≠ b.extract.1 → b.extract.2.contains x = b.contains x) := by
  cases h : b._bagElements.elems with
  | nil =>
    have hsize : b._bagElements.size = 0 := by simp [QSet.size, h]
    refine ⟨fun _ => ?_, fun _ => extract_of_nil b h, fun hpos => ?_⟩
    · rw [extract_of_nil b h]
      exact ⟨fun _ => hsize, fun _ => rfl⟩
    · omega
  | cons a l =>
    obtain ⟨hr, hrest, _⟩ := extract_of_cons b a l h
    have hsize : b._bagElements.size = l.length + 1 := by simp [QSet.size, h]
    have hnodup : (a :: l).Nodup := h ▸ b._bagElements.nodup
    have hal : a ∉ l := (List.nodup_cons.mp hnodup).1
    refine ⟨fun hnull => ?_, fun h0 => ?_, fun _ => ⟨?_, ?_, ?_, ?_⟩⟩
    · constructor
      · intro hres
        exfalso
        have hmem : NULL ∈ b._bagElements.elems := by
          rw [h, ← hres, hr]; exact List.mem_cons_self a l
        exact (bag_contains_eq_false_iff b NULL).mp hnull hmem
      · intro h0; omega
    · omega
    · rw [hr]
      exact (bag_contains_eq_true_iff b a).mpr (by rw [h]; exact List.mem_cons_self a l)
    · rw [hr]
      exact (bag_contains_eq_false_iff _ a).mpr (by rw [hrest]; exact hal)
    · simp [QSet.size, hrest, h]
    · intro x hx
      rw [hr] at hx
      apply contains_congr
      rw [hrest, h]
      simp [hx]

/-- C9: after `insert(e)` the bag contains `e` and `contains(x)` is as before for
every other `x`; inserting an element that is present returns the very same bag,
so `insert(e); insert(e)` equals `insert(e)`; from every bag (so also after
inserting `e` twice) one `remove(e)`, or one `extract()` that returns `e`, leaves
a bag that does not contain `e`. -/
theorem insert_set_semantics (b : OctreeElementBag) (e : OctreeElementPtr) :
    (b.insert e).contains e = true ∧
    (∀ x, x ≠ e → (b.insert e).contains x = b.contains x) ∧
    (b.contains e = true → b.insert e = b) ∧
    (b.insert e).insert e = b.insert e ∧
    (((b.insert e).insert e).remove e).contains e = false ∧
    ∀ c : OctreeElementBag, (c.remove e).contains e = false ∧
      (c.extract.1 = e → c.extract.2.contains e = false) := by
  have hself : e ∈ (b.insert e)._bagElements.elems :=
    (QSet.mem_insert_iff b._bagElements e e).mpr (Or.inl rfl)
  have hpresent : ∀ c : OctreeElementBag, e ∈ c._bagElements.elems → c.insert e = c :=
    fun c hc => eq_of_fields_eq _ _ (QSet.insert_of_mem c._bagElements e hc) rfl
  have hremove : ∀ c : OctreeElementBag, (c.remove e).contains e = false := fun c =>
    (bag_contains_eq_false_iff _ e).mpr (fun h => ((QSet.mem_remove_iff _ e e).mp h).1 rfl)
  refine ⟨(bag_contains_eq_true_iff _ e).mpr hself, ?_, ?_, hpresent _ hself, hremove _, ?_⟩
  · intro x hx
    apply contains_congr
    constructor
    · intro h
      rcases (QSet.mem_insert_iff b._bagElements e x).mp h with h1 | h1
      · exact absurd h1 hx
      · exact h1
    · exact fun h => (QSet.mem_insert_iff b._bagElements e x).mpr (Or.inr h)
  · exact fun h => hpresent b ((bag_contains_eq_true_iff b e).mp h)
  · intro c
    refine ⟨hremove c, fun hres => ?_⟩
    have h := extract_drops_result c
    rw [hres] at h
    exact h

end OctreeElementBag

/-- C4 at the example bag and the absent element 4. -/
theorem remove_absent_unchanged_witness :
    exampleBag.contains 4 = false ∧ exampleBag.remove 4 = exampleBag ∧
    (exampleBag.elementDeleted 4).2 = exampleBag :=
  ⟨by decide, (OctreeElementBag.remove_absent_unchanged exampleBag 4 (by decide)).1,
    (OctreeElementBag.remove_absent_unchanged exampleBag 4 (by decide)).2.1⟩

/-- C5 at the example bag and the element 5: in the later calls the bag hands out
8, 9 and 3 and then runs empty. -/
theorem elementDeleted_forgets_witness :
    (exampleBag.elementDeleted 5).2.contains 5 = false ∧
    (exampleBag.elementDeleted 5).2.contains 8 = exampleBag.contains 8 ∧
    (5 : OctreeElementPtr) ≠ NULL ∧
    OctreeElementBag.Op.insert 5 ∉
      [OctreeElementBag.Op.extract, .insert 9, .extract, .extract, .extract] ∧
    OctreeElementBag.extractedElements (exampleBag.elementDeleted 5).2
      [.extract, .insert 9, .extract, .extract, .extract] = [8, 9, 3] ∧
    5 ∉ OctreeElementBag.extractedElements (exampleBag.elementDeleted 5).2
      [.extract, .insert 9, .extract, .extract, .extract] ∧
    5 ∉ OctreeElementBag.extractResults (exampleBag.elementDeleted 5).2
      [.extract, .insert 9, .extract, .extract, .extract] :=
  ⟨(OctreeElementBag.elementDeleted_forgets exampleBag 5).1,
    (OctreeElementBag.elementDeleted_forgets exampleBag 5).2.1 8 (by decide),
    by decide, by decide, by decide,
    (OctreeElementBag.elementDeleted_forgets exampleBag 5).2.2.1 _ (by decide),
    (OctreeElementBag.elementDeleted_forgets exampleBag 5).2.2.2 (by decide) _ (by decide)⟩

/-- C8 at the example bag (not empty) and at a new bag (empty). -/
theorem extract_spec_witness :
    exampleBag.contains NULL = false ∧
    (exampleBag.extract.1 = NULL ↔ exampleBag._bagElements.size = 0) ∧
    OctreeElementBag.new._bagElements.size = 0 ∧
    OctreeElementBag.new.extract = (NULL, OctreeElementBag.new) ∧
    exampleBag._bagElements.size > 0 ∧
    exampleBag.extract.2.contains exampleBag.extract.1 = false ∧
    exampleBag.extract.2._bagElements.size + 1 = exampleBag._bagElements.size :=
  ⟨by decide, (OctreeElementBag.extract_spec exampleBag).1 (by decide),
    by decide, (OctreeElementBag.extract_spec OctreeElementBag.new).2.1 (by decide),
    by decide, ((OctreeElementBag.extract_spec exampleBag).2.2 (by decide)).2.1,
    ((OctreeElementBag.extract_spec exampleBag).2.2 (by decide)).2.2.1⟩

/-- C9 at the example bag: inserting the new element 9, inserting the present
element 5, and extracting 8. -/
theorem insert_set_semantics_witness :
    ((5 : OctreeElementPtr) ≠ 9 ∧ (exampleBag.insert 9).contains 5 = exampleBag.contains 5) ∧
    (exampleBag.contains 5 = true ∧ exampleBag.insert 5 = exampleBag) ∧
    (exampleBag.extract.1 = 8 ∧ exampleBag.extract.2.contains 8 = false) :=
  ⟨⟨by decide, (OctreeElementBag.insert_set_semantics exampleBag 9).2.1 5 (by decide)⟩,
    ⟨by decide, (OctreeElementBag.insert_set_semantics exampleBag 5).2.2.1 (by decide)⟩,
    ⟨by decide,
      ((OctreeElementBag.insert_set_semantics exampleBag 8).2.2.2.2.2 exampleBag).2 (by decide)⟩⟩

/-! ## Theorems: `SwapFramebufferWrapper` -/

namespace SwapFramebufferWrapper

/-- C7: on a swap set with `1 ≤ TextureCount` (an `int`, so at most `INT_MAX`) and
`0 ≤ CurrentIndex < TextureCount`, `Increment()` returns, sets `CurrentIndex` to `(CurrentIndex + 1) mod TextureCount`
and changes nothing else; the new index is again in `[0, TextureCount)`, it is 0
when the old one was the last and the old one plus 1 otherwise. -/
theorem Increment_wraps (w : SwapFramebufferWrapper) (c : ovrSwapTextureSet)
    (hcolor : w.color = some c) (hcount : 1 ≤ c.TextureCount)
    (hint : c.TextureCount ≤ INT_MAX)
    (hlo : 0 ≤ c.CurrentIndex) (hhi : c.CurrentIndex < c.TextureCount) :
    w.Increment = some { color := some { Textures := c.Textures,
                                         TextureCount := c.TextureCount,
                                         CurrentIndex := (c.CurrentIndex + 1) % c.TextureCount } } ∧
    0 ≤ (c.CurrentIndex + 1) % c.TextureCount ∧
    (c.CurrentIndex + 1) % c.TextureCount < c.TextureCount ∧
    (c.CurrentIndex = c.TextureCount - 1 → (c.CurrentIndex + 1) % c.TextureCount = 0) ∧
    (c.CurrentIndex < c.TextureCount - 1 →
      (c.CurrentIndex + 1) % c.TextureCount = c.CurrentIndex + 1) := by
  have hpos : 0 < c.TextureCount := by omega
  have hne : c.TextureCount ≠ 0 := by omega
  have hwrap : wrapInt32 (c.CurrentIndex + 1) = c.CurrentIndex + 1 :=
    wrapInt32_eq_self _ (by omega) (by omega)
  have htmod : Int.tmod (c.CurrentIndex + 1) c.TextureCount
      = (c.CurrentIndex + 1) % c.TextureCount :=
    Int.tmod_eq_emod (by omega) (by omega)
  refine ⟨?_, Int.emod_nonneg _ hne, Int.emod_lt_of_pos _ hpos, ?_, ?_⟩
  · simp [Increment, hcolor, hne, hwrap, htmod]
  · intro hlast
    rw [hlast]
    simp
  · intro hnot
    exact Int.emod_eq_of_lt (by omega) (by omega)

end SwapFramebufferWrapper

/-- C7 at a set of three textures showing the last one: the index wraps to 0. -/
theorem Increment_wraps_witness :
    (1 : Int) ≤ exampleSwapSet.TextureCount ∧ exampleSwapSet.TextureCount ≤ INT_MAX ∧
    0 ≤ exampleSwapSet.CurrentIndex ∧ exampleSwapSet.CurrentIndex < exampleSwapSet.TextureCount ∧
    SwapFramebufferWrapper.Increment { color := some exampleSwapSet } =
      some { color := some { Textures := [11, 12, 13], TextureCount := 3, CurrentIndex := 0 } } :=
  ⟨by decide, by decide, by decide, by decide,
    (SwapFramebufferWrapper.Increment_wraps { color := some exampleSwapSet } exampleSwapSet rfl
      (by decide) (by decide) (by decide) (by decide)).1⟩

end Hifi
